import Mathlib

/-!
Verification development for the trading-platform core: shallow embedding of
the strategy variants (Grid, MeanReversion, Momentum), the strategy base
class's configuration update, the Binance exchange adapter's error handling,
and the risk gate (`RiskService.check_trade_risk`), together with theorems
settling the specification claims.

Conventions of the embedding:
* Python floats are modelled as rationals (`ℚ`); all arithmetic used by the
  claims is field arithmetic (`+ - * /`), exact over `ℚ`.
* Python dict-backed strategy configuration is read through `dict.get(key,
  default)`; each strategy's view of its configuration is therefore embedded
  as a structure whose fields carry the value that `.get` returns, with the
  source's defaults as Lean default field values.  The raw dict with Python
  `dict.update` semantics is embedded separately (`PyDict`) for the claim
  about `BaseStrategy.update_config`.
* Stateful methods become explicit state-passing functions returning the
  result together with the new state.
* `try/except` blocks that convert failures into soft results are embedded by
  making the fallible sub-computations explicit inputs (`Except` values).
-/

/-- Trade signal emitted by a strategy (`TradeSignal` enum in
`strategies/base.py`). -/
inductive TradeSignal
  | buy
  | sell
  | hold
deriving DecidableEq, Repr

/-- Side of a grid level: `'buy' if i < 0 else 'sell'` in
`GridStrategy.initialize`. -/
inductive LevelSide
  | buy
  | sell
deriving DecidableEq, Repr

/-- Python `numpy.mean` over a list of rationals; the empty list yields `0`
here (the claims never evaluate it on an empty list with a positive period). -/
def pyMean (l : List ℚ) : ℚ := l.sum / (l.length : ℚ)

/-- Python slice `l[-n:]`: the last `n` elements; for `n = 0` Python returns
the whole list (`l[-0:] = l[0:]`), and for `n ≥ len(l)` the whole list. -/
def pyLastN (n : ℕ) (l : List α) : List α :=
  if n = 0 then l else l.drop (l.length - n)

/-- Append to a `collections.deque` with `maxlen = cap`: the element is
appended and, when the capacity is exceeded, elements are dropped from the
left. -/
def pushCap (cap : ℕ) (l : List ℚ) (p : ℚ) : List ℚ :=
  let l' := l ++ [p]
  l'.drop (l'.length - cap)

/-- One rung of the grid ladder as built by `GridStrategy.initialize`
(dict with keys `price`, `type`, `filled`, `order_id`). -/
structure GridLevel where
  price : ℚ
  type : LevelSide
  filled : Bool
  order_id : Option ℕ := none
deriving DecidableEq, Repr

/-- The Grid strategy's view of its configuration dict: each field is the
value `self.config.get(key, default)` returns, with the defaults used in
`grid_strategy.py`.  `trigger_threshold` keeps its optionality because its
default (`self.grid_spacing * 0.1`) is computed from another field. -/
structure GridConfig where
  base_price : ℚ := 0
  grid_spacing : ℚ := 0
  num_levels : ℤ := 10
  trigger_threshold : Option ℚ := none
  base_amount : ℚ := 100
  max_position : ℚ := 1000
deriving DecidableEq, Repr

/-- Insert a level into a price-sorted list of levels (strictly-before on
smaller price, after on ties), the building block of a stable sort mirroring
`self.grid_levels.sort(key=lambda x: x['price'])`. -/
def insertByPrice (l : GridLevel) : List GridLevel → List GridLevel
  | [] => [l]
  | x :: xs => if l.price < x.price then l :: x :: xs else x :: insertByPrice l xs

/-- Stable insertion sort by price, mirroring Python's stable
`list.sort(key=lambda x: x['price'])`. -/
def sortByPrice : List GridLevel → List GridLevel
  | [] => []
  | x :: xs => insertByPrice x (sortByPrice xs)

namespace GridStrategy

/-- Embedding of `GridStrategy.initialize`: rejects non-positive base price,
spacing or level count (returning `none` for Python `False`), otherwise
builds one level per `i ∈ range(-num_levels, num_levels + 1)` at price
`base_price + i * grid_spacing`, keeping only positive prices, with side
`buy` for `i < 0` and `sell` otherwise, and finally sorts by price. -/
def initLevels (cfg : GridConfig) : Option (List GridLevel) :=
  if cfg.base_price ≤ 0 ∨ cfg.grid_spacing ≤ 0 ∨ cfg.num_levels ≤ 0 then
    none
  else
    let n : ℕ := cfg.num_levels.toNat
    let idxs : List ℤ := (List.range (2 * n + 1)).map (fun k => (k : ℤ) - (n : ℤ))
    let levels : List GridLevel := idxs.filterMap (fun i =>
      let level_price : ℚ := cfg.base_price + (i : ℚ) * cfg.grid_spacing
      if 0 < level_price then
        some { price := level_price
               type := if i < 0 then LevelSide.buy else LevelSide.sell
               filled := false }
      else none)
    some (sortByPrice levels)

/-- Embedding of `GridStrategy.calculate_position_size`: quantity is
`base_amount / price`, clamped (only from above) so that
`current_position + quantity ≤ max_position`; the position is then increased
by the quantity on BUY and decreased on any other signal.  Returns
`(quantity, new_position)`. -/
def calculate_position_size (cfg : GridConfig) (pos : ℚ) (signal : TradeSignal)
    (price : ℚ) : ℚ × ℚ :=
  let quantity := cfg.base_amount / price
  let quantity := if cfg.max_position < pos + quantity then cfg.max_position - pos else quantity
  let pos' :=
    match signal with
    | TradeSignal.buy => pos + quantity
    | _ => pos - quantity
  (quantity, pos')

/-- Runtime state of a Grid strategy instance: the grid ladder, the signed
net position, the running flag, and (from `BaseStrategy.log_trade`) the trade
counter plus the data of the last logged trade `(signal, quantity, price)`. -/
structure State where
  levels : List GridLevel
  current_position : ℚ := 0
  is_running : Bool := true
  total_trades : ℕ := 0
  last_trade : Option (TradeSignal × ℚ × ℚ) := none
deriving DecidableEq, Repr

/-- Scan of `GridStrategy.execute`'s closest-level loop: among unfilled
levels, track the first one at minimal `|price - level.price|` (the source
updates only on a strictly smaller distance).  Returns the index, the level
and its distance. -/
def closestUnfilled (price : ℚ) : List GridLevel → ℕ → Option (ℕ × GridLevel × ℚ) →
    Option (ℕ × GridLevel × ℚ)
  | [], _, best => best
  | l :: rest, idx, best =>
    let best' :=
      if l.filled then best
      else
        let d := |price - l.price|
        match best with
        | none => some (idx, l, d)
        | some (j, m, dm) => if d < dm then some (idx, l, d) else some (j, m, dm)
    closestUnfilled price rest (idx + 1) best'

/-- The trigger threshold `self.config.get('trigger_threshold',
self.grid_spacing * 0.1)`. -/
def triggerThreshold (cfg : GridConfig) : ℚ :=
  cfg.trigger_threshold.getD (cfg.grid_spacing * (1 / 10))

/-- Embedding of `GridStrategy.execute`: returns `None` when not running or
on a non-positive price; otherwise finds the closest unfilled level and, when
it is within the trigger threshold and the price has crossed it in the
level's direction, marks the level filled, sizes the trade through
`calculate_position_size` (updating the position) and logs it. -/
def execute (cfg : GridConfig) (st : State) (price : ℚ) : Option TradeSignal × State :=
  if st.is_running = false then (none, st)
  else if price ≤ 0 then (none, st)
  else
    match closestUnfilled price st.levels 0 none with
    | none => (none, st)
    | some (i, lvl, dist) =>
      if dist ≤ triggerThreshold cfg then
        let sig? : Option TradeSignal :=
          if lvl.type = LevelSide.buy ∧ price ≤ lvl.price then some TradeSignal.buy
          else if lvl.type = LevelSide.sell ∧ lvl.price ≤ price then some TradeSignal.sell
          else none
        match sig? with
        | none => (none, st)
        | some sig =>
          let levels' := st.levels.set i { lvl with filled := true }
          let r := calculate_position_size cfg st.current_position sig price
          (some sig,
            { st with
                levels := levels'
                current_position := r.2
                total_trades := st.total_trades + 1
                last_trade := some (sig, r.1, price) })
      else (none, st)

/-- Fold `calculate_position_size` over a sequence of `(signal, price)`
pairs, returning the final position. -/
def runSizes (cfg : GridConfig) (pos : ℚ) : List (TradeSignal × ℚ) → ℚ
  | [] => pos
  | (sig, price) :: rest =>
    runSizes cfg (calculate_position_size cfg pos sig price).2 rest

end GridStrategy

/-- The risk-management tail shared verbatim by the MeanReversion and
Momentum `calculate_position_size` methods: the (scaled) quantity is clamped
against `max_position + pos` for BUY and against `-(max_position) + pos` for
any other signal, forced non-negative with `max(0, ·)`, and then applied to
the position (added on BUY, subtracted on SELL, unchanged otherwise).
Returns `(quantity, new_position)`. -/
def clampAndApply (max_position pos q : ℚ) (signal : TradeSignal) : ℚ × ℚ :=
  let quantity :=
    match signal with
    | TradeSignal.buy => if max_position < pos + q then max_position - pos else q
    | _ => if pos - q < -max_position then pos + max_position else q
  let quantity := max 0 quantity
  let pos' :=
    match signal with
    | TradeSignal.buy => pos + quantity
    | TradeSignal.sell => pos - quantity
    | TradeSignal.hold => pos
  (quantity, pos')

/-- The MeanReversion strategy's view of its configuration dict, with the
defaults used in `mean_reversion_strategy.py`. -/
structure MRConfig where
  short_period : ℕ := 20
  long_period : ℕ := 50
  buy_threshold : ℚ := -2 / 100
  sell_threshold : ℚ := 2 / 100
  base_amount : ℚ := 100
  max_position : ℚ := 1000
deriving DecidableEq, Repr

namespace MeanReversionStrategy

/-- Runtime state of a MeanReversion strategy instance relevant to its
execution: the rolling price history (deque of maxlen 200), the signed net
position, the hysteresis flag `last_signal`, and the running flag.  (The
`sma_short`/`sma_long` deques are only appended to in `execute` and never
read by it, so they are omitted.) -/
structure State where
  price_history : List ℚ := []
  current_position : ℚ := 0
  last_signal : Option TradeSignal := none
  is_running : Bool := true
deriving DecidableEq, Repr

/-- Embedding of `MeanReversionStrategy.calculate_position_size`: base
quantity `base_amount / price`, scaled by the configured deviation magnitude
(note the source reads `buy_threshold` into its `deviation` variable), then
clamped on the appropriate side of `max_position`, forced non-negative, and
applied to the position.  Returns `(quantity, new_position)`. -/
def calculate_position_size (cfg : MRConfig) (pos : ℚ) (signal : TradeSignal)
    (price : ℚ) : ℚ × ℚ :=
  let quantity := cfg.base_amount / price
  let deviation := cfg.buy_threshold
  let quantity :=
    if 5 / 100 < |deviation| then quantity * (3 / 2)
    else if |deviation| < 1 / 100 then quantity * (1 / 2)
    else quantity
  clampAndApply cfg.max_position pos quantity signal

/-- The long-SMA deviation `(price - long_sma) / long_sma` that
`MeanReversionStrategy.execute` computes for a tick at `price` from state
`st`, or `none` on the paths where `execute` returns early (not running,
non-positive price, insufficient history). -/
def deviationOf (cfg : MRConfig) (st : State) (price : ℚ) : Option ℚ :=
  if st.is_running = false then none
  else if price ≤ 0 then none
  else
    let hist := pushCap 200 st.price_history price
    if hist.length < cfg.long_period then none
    else
      let long_sma := pyMean (pyLastN cfg.long_period hist)
      some ((price - long_sma) / long_sma)

/-- Embedding of `MeanReversionStrategy.execute`: appends the price to the
history; with enough samples it computes the deviation from the long SMA and
emits BUY on deviation ≤ `buy_threshold` with position headroom (unless the
previous signal was already BUY), SELL symmetrically, and otherwise HOLD
(clearing `last_signal`).  An emitted BUY/SELL is sized through
`calculate_position_size`, which updates the position. -/
def execute (cfg : MRConfig) (st : State) (price : ℚ) : Option TradeSignal × State :=
  if st.is_running = false then (none, st)
  else if price ≤ 0 then (none, st)
  else
    let hist := pushCap 200 st.price_history price
    if hist.length < cfg.long_period then (none, { st with price_history := hist })
    else
      let long_sma := pyMean (pyLastN cfg.long_period hist)
      let deviation := (price - long_sma) / long_sma
      if deviation ≤ cfg.buy_threshold ∧ st.current_position < cfg.max_position then
        if st.last_signal ≠ some TradeSignal.buy then
          let r := calculate_position_size cfg st.current_position TradeSignal.buy price
          (some TradeSignal.buy,
            { st with price_history := hist, current_position := r.2,
                      last_signal := some TradeSignal.buy })
        else (none, { st with price_history := hist })
      else if cfg.sell_threshold ≤ deviation ∧ -cfg.max_position < st.current_position then
        if st.last_signal ≠ some TradeSignal.sell then
          let r := calculate_position_size cfg st.current_position TradeSignal.sell price
          (some TradeSignal.sell,
            { st with price_history := hist, current_position := r.2,
                      last_signal := some TradeSignal.sell })
        else (none, { st with price_history := hist })
      else
        (some TradeSignal.hold,
          { st with price_history := hist, last_signal := none })

/-- Boolean check of C4's side condition for one tick: either `execute` would
not reach the deviation computation, or the computed deviation is at most
`buy_threshold`. -/
def devLowB (cfg : MRConfig) (st : State) (price : ℚ) : Bool :=
  match deviationOf cfg st price with
  | none => true
  | some d => decide (d ≤ cfg.buy_threshold)

/-- C4's side condition along a whole tick sequence: every tick, evaluated in
the state it is actually processed in, satisfies `devLowB`. -/
def devLowTrace (cfg : MRConfig) (st : State) : List ℚ → Bool
  | [] => true
  | p :: ps => devLowB cfg st p && devLowTrace cfg (execute cfg st p).2 ps

/-- Whether any call of `execute` along the tick sequence emits BUY. -/
def emitsBuy (cfg : MRConfig) (st : State) : List ℚ → Bool
  | [] => false
  | p :: ps =>
    if (execute cfg st p).1 = some TradeSignal.buy then true
    else emitsBuy cfg (execute cfg st p).2 ps

/-- Fold `calculate_position_size` over a sequence of `(signal, price)`
pairs, returning the final position. -/
def runSizes (cfg : MRConfig) (pos : ℚ) : List (TradeSignal × ℚ) → ℚ
  | [] => pos
  | (sig, price) :: rest =>
    runSizes cfg (calculate_position_size cfg pos sig price).2 rest

end MeanReversionStrategy

/-- The Momentum strategy's view of its configuration dict, with the defaults
used in `momentum_strategy.py`. -/
structure MomConfig where
  rsi_period : ℕ := 14
  macd_fast : ℕ := 12
  macd_slow : ℕ := 26
  macd_signal : ℕ := 9
  rsi_oversold : ℚ := 30
  rsi_overbought : ℚ := 70
  base_amount : ℚ := 100
  max_position : ℚ := 1000
deriving DecidableEq, Repr

/-- Trend direction kept by the Momentum strategy (`'up'`, `'down'` or
`None`). -/
inductive TrendDir
  | up
  | down
deriving DecidableEq, Repr

namespace MomentumStrategy

/-- Consecutive price changes `prices[i] - prices[i-1]` for `i = 1..`. -/
def priceChanges : List ℚ → List ℚ
  | [] => []
  | [_] => []
  | a :: b :: rest => (b - a) :: priceChanges (b :: rest)

/-- Embedding of `MomentumStrategy._calculate_rsi` on a price history:
`none` when fewer than `period + 1` samples exist; otherwise splits each
change into a gain (`change` if positive, else `0`) and a loss (`|change|`
if non-positive, else `0`), averages the last `period` of each, and returns
`100` when the average loss is zero, else `100 - 100 / (1 + rs)` with
`rs = avg_gain / avg_loss`. -/
def calculate_rsi (period : ℕ) (price_history : List ℚ) : Option ℚ :=
  if price_history.length < period + 1 then none
  else
    let changes := priceChanges price_history
    let gains := changes.map (fun c => if 0 < c then c else 0)
    let losses := changes.map (fun c => if 0 < c then 0 else |c|)
    if gains.length < period then none
    else
      let avg_gain := pyMean (pyLastN period gains)
      let avg_loss := pyMean (pyLastN period losses)
      if avg_loss = 0 then some 100
      else some (100 - 100 / (1 + avg_gain / avg_loss))

/-- Embedding of `MomentumStrategy.calculate_position_size`: base quantity
`base_amount / price`, scaled for extreme or neutral last RSI and for
trend-aligned trades, then clamped on the appropriate side of
`max_position`, forced non-negative, and applied to the position.  The last
RSI value (from the `rsi_values` deque) and the trend direction are the
pieces of strategy state the method reads.  Returns
`(quantity, new_position)`. -/
def calculate_position_size (cfg : MomConfig) (rsi_last : Option ℚ)
    (trend : Option TrendDir) (pos : ℚ) (signal : TradeSignal) (price : ℚ) : ℚ × ℚ :=
  let quantity := cfg.base_amount / price
  let quantity :=
    match rsi_last with
    | none => quantity
    | some rsi =>
      if rsi < 20 ∨ 80 < rsi then quantity * (3 / 2)
      else if 40 < rsi ∧ rsi < 60 then quantity * (7 / 10)
      else quantity
  let quantity :=
    if trend = some TrendDir.up ∧ signal = TradeSignal.buy then quantity * (6 / 5)
    else if trend = some TrendDir.down ∧ signal = TradeSignal.sell then quantity * (6 / 5)
    else quantity
  clampAndApply cfg.max_position pos quantity signal

/-- Fold `calculate_position_size` over a sequence of
`(signal, price, last RSI, trend)` tuples, returning the final position. -/
def runSizes (cfg : MomConfig) (pos : ℚ) :
    List (TradeSignal × ℚ × Option ℚ × Option TrendDir) → ℚ
  | [] => pos
  | (sig, price, rsi, trend) :: rest =>
    runSizes cfg (calculate_position_size cfg rsi trend pos sig price).2 rest

end MomentumStrategy

/-- A Python dict with string keys, as the raw strategy configuration object
owned by `BaseStrategy`: an association list with at most one binding per key
(insertion order preserved, as in Python). -/
abbrev PyDict (V : Type) : Type := List (String × V)

/-- Set one key, replacing an existing binding in place or appending a new
one at the end — the effect of `d[k] = v` on a Python dict. -/
def PyDict.setKey (d : PyDict V) (k : String) (v : V) : PyDict V :=
  if d.any (fun kv => kv.1 = k) then
    d.map (fun kv => if kv.1 = k then (k, v) else kv)
  else d ++ [(k, v)]

/-- Python `d.update(new)`: every binding of `new` is written into `d`. -/
def PyDict.updateWith (d : PyDict V) (new : PyDict V) : PyDict V :=
  new.foldl (fun acc kv => acc.setKey kv.1 kv.2) d

namespace BaseStrategy

/-- Embedding of `BaseStrategy.update_config`, parameterized by the
subclass's `validate_config` on the merged dict: the old config is copied,
the new entries are merged in with `dict.update`, and the merge is kept only
if validation succeeds — otherwise the copy is restored.  Returns the boolean
result together with the config the strategy holds afterwards. -/
def update_config (validate : PyDict V → Bool) (config : PyDict V)
    (new_config : PyDict V) : Bool × PyDict V :=
  let old_config := config
  let merged := config.updateWith new_config
  if validate merged then (true, merged) else (false, old_config)

end BaseStrategy

/-- A network/API failure raised by the HTTP layer inside `_make_request`
(aiohttp errors, JSON decode errors, non-JSON responses, …). -/
structure TransportError where
  msg : String
deriving DecidableEq, Repr

/-- Order side (`OrderSide` enum in `exchanges/base.py`). -/
inductive OrderSide
  | buy
  | sell
deriving DecidableEq, Repr

/-- Normalized balance (`Balance` dataclass in `exchanges/base.py`). -/
structure Balance where
  asset : String
  free : ℚ
  locked : ℚ
  total : ℚ
deriving DecidableEq, Repr

/-- One entry of the `balances` array of Binance's account-info response;
the string-encoded numeric fields are modelled by their parsed values. -/
structure RawBalance where
  asset : String
  free : ℚ
  locked : ℚ
deriving DecidableEq, Repr

/-- Binance account-info payload as far as the adapter reads it. -/
structure AccountInfo where
  balances : List RawBalance
deriving DecidableEq, Repr

/-- Binance 24hr-ticker payload as far as `get_price` reads it: the `price`
and `volume` fields, each possibly absent. -/
structure TickerResponse where
  price : Option ℚ
  volume : Option ℚ
deriving DecidableEq, Repr

/-- Normalized price tick (`PriceData` dataclass in `exchanges/base.py`);
the wall-clock timestamp and exchange tag carry no information for the
claims and are omitted. -/
structure PriceData where
  symbol : String
  price : ℚ
  volume : ℚ
deriving DecidableEq, Repr

/-- One entry of Binance's `myTrades` response as far as `get_trades` reads
it. -/
structure RawTrade where
  id : ℕ
  orderId : ℕ
  isBuyer : Bool
  qty : ℚ
  price : ℚ
  commission : ℚ
  commissionAsset : String
  time_ms : ℕ
deriving DecidableEq, Repr

/-- Normalized execution record (`Trade` dataclass in `exchanges/base.py`),
with the timestamp kept as the raw millisecond epoch. -/
structure Trade where
  id : ℕ
  order_id : ℕ
  symbol : String
  side : OrderSide
  quantity : ℚ
  price : ℚ
  fee : ℚ
  fee_currency : String
  time_ms : ℕ
deriving DecidableEq, Repr

/-- One entry of Binance's `exchangeInfo.symbols` array as far as
`get_symbols` reads it. -/
structure RawSymbolInfo where
  symbol : String
  status : String
deriving DecidableEq, Repr

namespace BinanceExchange

/-- Embedding of `BaseExchange.validate_symbol`: rejects the empty string
and symbols shorter than 3 characters. -/
def validate_symbol (symbol : String) : Bool :=
  if symbol = "" ∨ symbol.length < 3 then false else true

/-- Embedding of `BinanceExchange.get_account_info`.  The outcome of the
underlying `_make_request` call is the explicit `transport` input: on a
transport failure the `except` block logs and then re-`raise`s, so the error
is propagated to the caller (`Except.error` in the embedding). -/
def get_account_info (transport : Except TransportError AccountInfo) :
    Except TransportError AccountInfo :=
  match transport with
  | Except.error e => Except.error e
  | Except.ok r => Except.ok r

/-- Embedding of `BinanceExchange.get_balances`: built on
`get_account_info`; keeps balances with a positive free or locked amount and
normalizes them (`total = free + locked`).  Its `except` block also
re-`raise`s, so a transport failure is propagated to the caller. -/
def get_balances (transport : Except TransportError AccountInfo) :
    Except TransportError (List Balance) :=
  match get_account_info transport with
  | Except.error e => Except.error e
  | Except.ok info =>
    Except.ok ((info.balances.filter (fun b => 0 < b.free ∨ 0 < b.locked)).map
      (fun b => { asset := b.asset, free := b.free, locked := b.locked,
                  total := b.free + b.locked }))

/-- Embedding of `BinanceExchange.get_symbols`: keeps the symbols whose
status is `TRADING`.  Its `except` block re-`raise`s, so a transport failure
is propagated to the caller. -/
def get_symbols (transport : Except TransportError (List RawSymbolInfo)) :
    Except TransportError (List String) :=
  match transport with
  | Except.error e => Except.error e
  | Except.ok l =>
    Except.ok ((l.filter (fun s => s.status = "TRADING")).map (fun s => s.symbol))

/-- Embedding of `BinanceExchange.get_price`: invalid symbols short-circuit
to `None` before any network call; a transport failure is caught and
converted to `None` (soft failure); a response without a `price` key yields
`None`, and a missing `volume` key raises a `KeyError` inside the `try`,
which the same handler converts to `None`. -/
def get_price (symbol : String) (transport : Except TransportError TickerResponse) :
    Option PriceData :=
  if validate_symbol symbol = false then none
  else
    match transport with
    | Except.error _ => none
    | Except.ok r =>
      match r.price, r.volume with
      | some p, some v => some { symbol := symbol, price := p, volume := v }
      | some _, none => none
      | none, _ => none

/-- Embedding of `BinanceExchange.get_trades`: invalid symbols short-circuit
to `[]`; a transport failure is caught and converted to `[]` (soft failure);
otherwise each raw trade is normalized. -/
def get_trades (symbol : String) (transport : Except TransportError (List RawTrade)) :
    List Trade :=
  if validate_symbol symbol = false then []
  else
    match transport with
    | Except.error _ => []
    | Except.ok l =>
      l.map (fun t =>
        { id := t.id, order_id := t.orderId, symbol := symbol,
          side := if t.isBuyer then OrderSide.buy else OrderSide.sell,
          quantity := t.qty, price := t.price, fee := t.commission,
          fee_currency := t.commissionAsset, time_ms := t.time_ms })

end BinanceExchange

/-- The fields of a stored risk profile that `check_trade_risk` and its
helpers read, with the model/schema defaults (`models/risk.py`). -/
structure RiskProfile where
  max_position_size : ℚ := 10000
  max_positions : ℤ := 10
  daily_loss_limit : ℚ := 1000
  weekly_loss_limit : ℚ := 5000
  monthly_loss_limit : ℚ := 20000
  total_loss_limit : ℚ := 50000
  max_volatility_threshold : ℚ := 50
  trading_hours_start : String := "09:00"
  trading_hours_end : String := "17:00"
  weekend_trading : Bool := false
deriving DecidableEq, Repr

/-- A proposed trade to be risk-checked (`RiskCheckRequest` schema). -/
structure RiskCheckRequest where
  symbol : String
  side : String
  quantity : ℚ
  price : Option ℚ := none
  order_type : String
deriving DecidableEq, Repr

/-- The wall-clock data `_check_trading_hours` reads from
`datetime.utcnow()`: `weekday()` (0 = Monday, …, 6 = Sunday) and
`strftime("%H:%M")`. -/
structure ClockNow where
  weekday : ℕ
  hhmm : String
deriving DecidableEq, Repr

/-- The rolling P&L snapshot consumed by `_check_loss_limits`.  In the source
these are constants marked `# Mock data - in real app, this would check
actual P&L`; per the spec they are supplied by the trading-statistics
collaborator, so the embedding takes them as an input.  The defaults are the
source's mock values. -/
structure PnlSnapshot where
  daily_pnl : ℚ := 2500
  weekly_pnl : ℚ := 8500
  monthly_pnl : ℚ := 18500
  total_pnl : ℚ := 25000
deriving DecidableEq, Repr

/-- The open-position snapshot consumed by `_check_position_limits`
(likewise mock constants standing for collaborator data). -/
structure PositionSnapshot where
  current_positions : ℤ := 3
  current_position_value : ℚ := 45000
deriving DecidableEq, Repr

/-- Outcome of one private check: the `allowed` flag and the blocking
errors / non-blocking warnings it produced.  The human-readable `details`
dict is presentation-only (no code path reads it back) and is not modelled;
the `risk_factors` keys are tracked in `check_trade_risk` itself. -/
structure CheckResult where
  allowed : Bool
  errors : List String := []
  warnings : List String := []
deriving DecidableEq, Repr

/-- Result of a risk check (`RiskCheckResponse` schema), with `risk_factors`
modelled by its list of keys (the only part of the factor dict any code path
reads: `_calculate_risk_score` tests key membership). -/
structure RiskCheckResponse where
  is_allowed : Bool
  risk_score : ℚ
  warnings : List String := []
  errors : List String := []
  suggested_quantity : Option ℚ := none
  suggested_price : Option ℚ := none
  risk_factors : List String := []
deriving DecidableEq, Repr

/-- Python `trade_request.price or 50000`: `None` and `0.0` are falsy and
fall back to the default. -/
def pyPriceOr (price : Option ℚ) (default : ℚ) : ℚ :=
  match price with
  | none => default
  | some p => if p = 0 then default else p

/-- Python truthiness of `trade_request.price` (`None` and `0.0` are
falsy). -/
def pyPriceTruthy (price : Option ℚ) : Bool :=
  match price with
  | none => false
  | some p => if p = 0 then false else true

namespace RiskService

/-- Embedding of `RiskService._check_trading_hours`: fails on a weekend
(`weekday() >= 5`) unless weekend trading is enabled, and otherwise requires
`trading_hours_start <= strftime("%H:%M") <= trading_hours_end` (Python
string comparison, i.e. lexicographic). -/
def check_trading_hours (rp : RiskProfile) (now : ClockNow) : Bool :=
  if 5 ≤ now.weekday ∧ rp.weekend_trading = false then false
  else if ¬(rp.trading_hours_start ≤ now.hhmm ∧ now.hhmm ≤ rp.trading_hours_end) then
    false
  else true

/-- Embedding of `RiskService._check_position_limits`: blocks when the open
position count has reached `max_positions`, and when the proposed notional
`quantity * (price or 50000)` exceeds `max_position_size`. -/
def check_position_limits (rp : RiskProfile) (req : RiskCheckRequest)
    (pos : PositionSnapshot) : CheckResult :=
  let errors :=
    (if rp.max_positions ≤ pos.current_positions then
      ["Maximum positions limit reached (" ++ toString pos.current_positions ++
        "/" ++ toString rp.max_positions ++ ")"]
     else []) ++
    (if rp.max_position_size < req.quantity * pyPriceOr req.price 50000 then
      ["Position size exceeds limit"]
     else [])
  { allowed := errors.isEmpty, errors := errors }

/-- Embedding of `RiskService._check_loss_limits`: each period P&L is
compared against the negated corresponding loss limit. -/
def check_loss_limits (rp : RiskProfile) (pnl : PnlSnapshot) : CheckResult :=
  let errors :=
    (if pnl.daily_pnl < -rp.daily_loss_limit then ["Daily loss limit exceeded"] else []) ++
    (if pnl.weekly_pnl < -rp.weekly_loss_limit then ["Weekly loss limit exceeded"] else []) ++
    (if pnl.monthly_pnl < -rp.monthly_loss_limit then ["Monthly loss limit exceeded"] else []) ++
    (if pnl.total_pnl < -rp.total_loss_limit then ["Total loss limit exceeded"] else [])
  { allowed := errors.isEmpty, errors := errors }

/-- Embedding of `RiskService._check_volatility`: produces a warning above
the volatility threshold but always reports `allowed = True` (volatility is
a warning, not a blocker). -/
def check_volatility (rp : RiskProfile) (current_volatility : ℚ) : CheckResult :=
  { allowed := true,
    warnings :=
      if rp.max_volatility_threshold < current_volatility then
        ["High volatility detected"]
      else [] }

/-- Embedding of `RiskService._calculate_risk_score`: a base score of 50
plus fixed penalties per present risk factor, plus 10 when a (truthy) priced
trade's notional exceeds 80% of `max_position_size`, clamped into
`[0, 100]` by `min(100, max(0, ·))`. -/
def calculate_risk_score (rp : RiskProfile) (req : RiskCheckRequest)
    (risk_factors : List String) : ℚ :=
  let base_score : ℚ := 50
  let base_score := if "trading_hours" ∈ risk_factors then base_score + 20 else base_score
  let base_score := if "position_limits" ∈ risk_factors then base_score + 15 else base_score
  let base_score := if "loss_limits" ∈ risk_factors then base_score + 25 else base_score
  let base_score := if "volatility" ∈ risk_factors then base_score + 10 else base_score
  let base_score :=
    match req.price with
    | none => base_score
    | some p =>
      if p = 0 then base_score
      else if rp.max_position_size * (8 / 10) < req.quantity * p then base_score + 10
      else base_score
  min 100 (max 0 base_score)

/-- Embedding of `RiskService._suggest_quantity`: for a truthy price,
`min(max_position_size * 0.8 / price, quantity)`. -/
def suggest_quantity (rp : RiskProfile) (req : RiskCheckRequest) : Option ℚ :=
  match req.price with
  | none => none
  | some p =>
    if p = 0 then none
    else some (min (rp.max_position_size * (8 / 10) / p) req.quantity)

/-- Embedding of `RiskService._suggest_price`: no suggestion for market
orders; otherwise a 2% buffer in the trade's disadvantageous direction
(when the price is truthy). -/
def suggest_price (_rp : RiskProfile) (req : RiskCheckRequest) : Option ℚ :=
  if req.order_type = "market" then none
  else if req.side = "buy" then
    match req.price with
    | none => none
    | some p => if p = 0 then none else some (p * (98 / 100))
  else
    match req.price with
    | none => none
    | some p => if p = 0 then none else some (p * (102 / 100))

/-- Embedding of `RiskService.check_trade_risk`.  The stored risk profile
lookup, the wall clock and the position/P&L/volatility snapshots are explicit
inputs (collaborator data; mock constants in the source).  Without an active
profile the check short-circuits to a denial with score 100 and the single
error `"No risk profile found"`.  Otherwise the trading-hours, position and
loss checks contribute blocking errors and risk-factor keys, the volatility
check contributes (never, since it always reports allowed) warnings, the
score is computed from the factors, and suggestions are produced only for
blocked trades. -/
def check_trade_risk (profile : Option RiskProfile) (req : RiskCheckRequest)
    (now : ClockNow) (pnl : PnlSnapshot) (pos : PositionSnapshot)
    (current_volatility : ℚ) : RiskCheckResponse :=
  match profile with
  | none =>
    { is_allowed := false, risk_score := 100, errors := ["No risk profile found"] }
  | some rp =>
    let hours_ok := check_trading_hours rp now
    let position_check := check_position_limits rp req pos
    let loss_check := check_loss_limits rp pnl
    let volatility_check := check_volatility rp current_volatility
    let errors :=
      (if hours_ok then [] else ["Trading outside allowed hours"]) ++
      (if position_check.allowed then [] else position_check.errors) ++
      (if loss_check.allowed then [] else loss_check.errors)
    let warnings :=
      if volatility_check.allowed then [] else volatility_check.warnings
    let risk_factors :=
      (if hours_ok then [] else ["trading_hours"]) ++
      (if position_check.allowed then [] else ["position_limits"]) ++
      (if loss_check.allowed then [] else ["loss_limits"]) ++
      (if volatility_check.allowed then [] else ["volatility"])
    let risk_score := calculate_risk_score rp req risk_factors
    let is_allowed := errors.isEmpty
    { is_allowed := is_allowed
      risk_score := risk_score
      warnings := warnings
      errors := errors
      suggested_quantity := if is_allowed then none else suggest_quantity rp req
      suggested_price := if is_allowed then none else suggest_price rp req
      risk_factors := risk_factors }

end RiskService

/-! ## Claim C3: grid ladder generation -/

/-- Grid configuration of the C3 scenario (`base_price=50000`,
`grid_spacing=1000`, `num_levels=3`). -/
def gridCfgC3 : GridConfig :=
  { base_price := 50000, grid_spacing := 1000, num_levels := 3 }

/-- The ladder `GridStrategy.initialize` builds in the C3 scenario. -/
def gridLevelsC3 : List GridLevel := (GridStrategy.initLevels gridCfgC3).getD []

/-- C3: Grid initialize with base_price=50000, grid_spacing=1000,
num_levels=3 succeeds and produces a ladder of exactly 7 levels with prices
{47000,…,53000}, sorted strictly ascending by price, where every level below
50000 is a buy level and every level above 50000 is a sell level (the level
at exactly 50000 is a sell level in the source, consistent with the claim's
two one-sided conditions). -/
theorem grid_init_ladder_C3 :
    (GridStrategy.initLevels gridCfgC3).isSome = true ∧
    gridLevelsC3.length = 7 ∧
    gridLevelsC3.map GridLevel.price = [47000, 48000, 49000, 50000, 51000, 52000, 53000] ∧
    List.Chain' (· < ·) (gridLevelsC3.map GridLevel.price) ∧
    (gridLevelsC3.all (fun l =>
      if l.price < 50000 then l.type = LevelSide.buy else l.type = LevelSide.sell)) = true := by
  have hlv : gridLevelsC3 =
      [{ price := 47000, type := LevelSide.buy, filled := false },
       { price := 48000, type := LevelSide.buy, filled := false },
       { price := 49000, type := LevelSide.buy, filled := false },
       { price := 50000, type := LevelSide.sell, filled := false },
       { price := 51000, type := LevelSide.sell, filled := false },
       { price := 52000, type := LevelSide.sell, filled := false },
       { price := 53000, type := LevelSide.sell, filled := false }] := by
    norm_num [gridLevelsC3, gridCfgC3, GridStrategy.initLevels, sortByPrice,
      insertByPrice, List.range, List.range.loop, List.filterMap_cons,
      List.filterMap_nil]
  refine ⟨?_, ?_, ?_, ?_, ?_⟩
  · norm_num [gridCfgC3, GridStrategy.initLevels]
  · rw [hlv]; rfl
  · rw [hlv]; norm_num
  · rw [hlv]; norm_num [List.chain'_cons]
  · rw [hlv]; norm_num

/-! ## Claim C2: grid end-to-end scenario -/

/-- Grid configuration of the C2 scenario. -/
def gridCfgC2 : GridConfig :=
  { base_price := 50000, grid_spacing := 1000, num_levels := 2,
    trigger_threshold := some 50, base_amount := 100 }

/-- Initial running state of the C2 scenario, right after `initialize`. -/
def gridStC2 : GridStrategy.State :=
  { levels := (GridStrategy.initLevels gridCfgC2).getD [] }

/-- First market tick of the C2 scenario, at price 49000. -/
def gridTick1 : Option TradeSignal × GridStrategy.State :=
  GridStrategy.execute gridCfgC2 gridStC2 49000

/-- Second market tick of the C2 scenario, again at price 49000. -/
def gridTick2 : Option TradeSignal × GridStrategy.State :=
  GridStrategy.execute gridCfgC2 gridTick1.2 49000

/-- C2: with `base_price=50000, grid_spacing=1000, num_levels=2,
base_amount=100, trigger_threshold=50`, the first tick at 49000 returns BUY
and logs quantity `100/49000` at price 49000; the tick marks the 49000 level
filled; and the second tick at 49000 returns no signal. -/
theorem grid_scenario_C2 :
    gridTick1.1 = some TradeSignal.buy ∧
    gridTick1.2.last_trade = some (TradeSignal.buy, 100 / 49000, 49000) ∧
    (gridTick1.2.levels.all (fun l =>
      if l.price = 49000 then l.filled else true)) = true ∧
    gridTick2.1 = none := by
  have hlv : gridStC2.levels =
      [{ price := 48000, type := LevelSide.buy, filled := false },
       { price := 49000, type := LevelSide.buy, filled := false },
       { price := 50000, type := LevelSide.sell, filled := false },
       { price := 51000, type := LevelSide.sell, filled := false },
       { price := 52000, type := LevelSide.sell, filled := false }] := by
    norm_num [gridStC2, gridCfgC2, GridStrategy.initLevels, sortByPrice,
      insertByPrice, List.range, List.range.loop, List.filterMap_cons,
      List.filterMap_nil]
  have ht1 : gridTick1 = (some TradeSignal.buy,
      { levels :=
          [{ price := 48000, type := LevelSide.buy, filled := false },
           { price := 49000, type := LevelSide.buy, filled := true },
           { price := 50000, type := LevelSide.sell, filled := false },
           { price := 51000, type := LevelSide.sell, filled := false },
           { price := 52000, type := LevelSide.sell, filled := false }],
        current_position := 100 / 49000, is_running := true, total_trades := 1,
        last_trade := some (TradeSignal.buy, 100 / 49000, 49000) }) := by
    rw [gridTick1, GridStrategy.execute, hlv]
    norm_num [gridStC2, gridCfgC2, GridStrategy.closestUnfilled,
      GridStrategy.triggerThreshold, GridStrategy.calculate_position_size,
      abs_eq_max_neg, max_def, min_def]
  have ht2 : gridTick2.1 = none := by
    rw [gridTick2, GridStrategy.execute, ht1]
    norm_num [gridCfgC2, GridStrategy.closestUnfilled,
      GridStrategy.triggerThreshold, abs_eq_max_neg, max_def, min_def]
  refine ⟨by rw [ht1], by rw [ht1], by rw [ht1]; norm_num, ht2⟩

/-! ## Claim C5: adapter error handling -/

/-- A concrete transport failure. -/
def teNet : TransportError := { msg := "Connection refused" }

/-- C5 (counterexample): a transport failure inside
`BinanceExchange.get_balances` (and `get_account_info`, on which it is
built) is re-raised, i.e. propagated to the adapter's caller as an exception
(`Except.error`) rather than converted to a soft-failure result — so the
claim that every adapter operation converts transport failures to soft
failures, in particular `get_balances` and `get_account_info`, is false. -/
theorem adapter_raises_C5_cex :
    BinanceExchange.get_balances (Except.error teNet) = Except.error teNet ∧
    BinanceExchange.get_account_info (Except.error teNet) = Except.error teNet := by
  exact ⟨rfl, rfl⟩

/-- C5 (amended): a transport failure is caught and converted to a soft
failure by `get_price` (`None`) and `get_trades` (empty list), but
`get_account_info`, `get_balances` and `get_symbols` log and re-raise it, so
for those operations the exception propagates to the caller. -/
theorem adapter_error_handling_C5 (symbol : String) (e : TransportError) :
    BinanceExchange.get_price symbol (Except.error e) = none ∧
    BinanceExchange.get_trades symbol (Except.error e) = [] ∧
    BinanceExchange.get_balances (Except.error e) = Except.error e ∧
    BinanceExchange.get_account_info (Except.error e) = Except.error e ∧
    BinanceExchange.get_symbols (Except.error e) = Except.error e := by
  refine ⟨?_, ?_, rfl, rfl, rfl⟩
  · unfold BinanceExchange.get_price
    split <;> rfl
  · unfold BinanceExchange.get_trades
    split <;> rfl

/-! ## Claim C9: all-or-nothing configuration update -/

/-- C9: for every validation function (each strategy subclass supplies its
own `validate_config`) and every current/new configuration dict, if
validation of the merged configuration fails then `update_config` returns
`False` and the strategy's config is exactly the one held before the call;
the merged configuration is retained iff validation succeeds. -/
theorem update_config_swap_C9 {V : Type} (validate : PyDict V → Bool)
    (config new_config : PyDict V) :
    ((BaseStrategy.update_config validate config new_config).1 = false →
      (BaseStrategy.update_config validate config new_config).2 = config) ∧
    ((BaseStrategy.update_config validate config new_config).1 = true →
      (BaseStrategy.update_config validate config new_config).2 =
          config.updateWith new_config ∧
        validate (config.updateWith new_config) = true) := by
  unfold BaseStrategy.update_config
  dsimp only
  split <;> simp_all

/-- C9 (witness): a failing validation at a concrete config restores the
original dict. -/
theorem update_config_swap_C9_witness :
    (BaseStrategy.update_config (fun _ => false) [("base_price", (50000 : ℚ))]
      [("base_price", (-1 : ℚ))]).2 = [("base_price", (50000 : ℚ))] :=
  (update_config_swap_C9 (fun _ => false) [("base_price", (50000 : ℚ))]
    [("base_price", (-1 : ℚ))]).1 rfl

/-! ## Claim C10: missing risk profile -/

/-- C10: with no active risk profile, `check_trade_risk` returns, for every
trade request and every snapshot input, exactly the denial response
`is_allowed=false`, `risk_score=100`, single error "No risk profile found",
with no warnings, suggestions or risk factors — independent of all the other
inputs, i.e. without the outcome of any other check entering the result. -/
theorem no_profile_denies_C10 (req : RiskCheckRequest) (now : ClockNow)
    (pnl : PnlSnapshot) (pos : PositionSnapshot) (vol : ℚ) :
    RiskService.check_trade_risk none req now pnl pos vol =
      { is_allowed := false, risk_score := 100, warnings := [],
        errors := ["No risk profile found"], suggested_quantity := none,
        suggested_price := none, risk_factors := [] } := rfl

/-! ## Claim C6: daily loss limit blocks -/

/-- A list with a member is not empty (helper for `len(errors) == 0`
reasoning). -/
theorem isEmpty_false_of_mem {α : Type} {l : List α} {a : α} (h : a ∈ l) :
    l.isEmpty = false := by
  rcases l with _ | ⟨x, xs⟩
  · simp at h
  · rfl

/-- C6: whenever the risk profile has `daily_loss_limit = 1000` and the P&L
snapshot has `daily_pnl = -1500`, `check_trade_risk` blocks the trade:
`is_allowed = false` with "Daily loss limit exceeded" among the errors —
regardless of the request, clock, position snapshot and volatility. -/
theorem daily_loss_blocks_C6 (rp : RiskProfile) (req : RiskCheckRequest)
    (now : ClockNow) (pnl : PnlSnapshot) (pos : PositionSnapshot) (vol : ℚ)
    (hlimit : rp.daily_loss_limit = 1000) (hpnl : pnl.daily_pnl = -1500) :
    (RiskService.check_trade_risk (some rp) req now pnl pos vol).is_allowed = false ∧
    "Daily loss limit exceeded" ∈
      (RiskService.check_trade_risk (some rp) req now pnl pos vol).errors := by
  have hcmp : pnl.daily_pnl < -rp.daily_loss_limit := by
    rw [hlimit, hpnl]; norm_num
  have hmem : "Daily loss limit exceeded" ∈
      (RiskService.check_loss_limits rp pnl).errors := by
    unfold RiskService.check_loss_limits
    simp [if_pos hcmp]
  have hallow : (RiskService.check_loss_limits rp pnl).allowed = false := by
    unfold RiskService.check_loss_limits
    dsimp only
    refine isEmpty_false_of_mem (a := "Daily loss limit exceeded") ?_
    simp [if_pos hcmp]
  have hmem' : "Daily loss limit exceeded" ∈
      (RiskService.check_trade_risk (some rp) req now pnl pos vol).errors := by
    unfold RiskService.check_trade_risk
    dsimp only
    rw [hallow]
    simp only [Bool.false_eq_true, if_false, List.mem_append]
    exact Or.inr hmem
  exact ⟨isEmpty_false_of_mem hmem', hmem'⟩

/-! ## Claim C7: trading-hours blocking and score range -/

/-- C7: (a) whenever the trading-hours check fails (weekend with weekend
trading disabled, or a clock outside the profile's window),
`check_trade_risk` returns `is_allowed = false` with a `trading_hours` entry
among the risk factors; (b) independently, the returned `risk_score` always
lies in `[0, 100]`, for every profile (present or absent) and all inputs. -/
theorem trading_hours_block_C7 :
    (∀ (rp : RiskProfile) (req : RiskCheckRequest) (now : ClockNow)
        (pnl : PnlSnapshot) (pos : PositionSnapshot) (vol : ℚ),
      RiskService.check_trading_hours rp now = false →
      (RiskService.check_trade_risk (some rp) req now pnl pos vol).is_allowed = false ∧
      "trading_hours" ∈
        (RiskService.check_trade_risk (some rp) req now pnl pos vol).risk_factors) ∧
    (∀ (profile : Option RiskProfile) (req : RiskCheckRequest) (now : ClockNow)
        (pnl : PnlSnapshot) (pos : PositionSnapshot) (vol : ℚ),
      0 ≤ (RiskService.check_trade_risk profile req now pnl pos vol).risk_score ∧
      (RiskService.check_trade_risk profile req now pnl pos vol).risk_score ≤ 100) := by
  constructor
  · intro rp req now pnl pos vol hhrs
    unfold RiskService.check_trade_risk
    dsimp only
    rw [hhrs]
    constructor
    · refine isEmpty_false_of_mem (a := "Trading outside allowed hours") ?_
      simp
    · simp
  · intro profile req now pnl pos vol
    cases profile with
    | none => norm_num [RiskService.check_trade_risk]
    | some rp =>
      unfold RiskService.check_trade_risk RiskService.calculate_risk_score
      dsimp only
      exact ⟨le_min (by norm_num) (le_max_left 0 _), min_le_left _ _⟩

/-- Profile used in the C7 witness (all defaults; weekend trading off). -/
def rpC7 : RiskProfile := {}

/-- Request used in the C6/C7 witnesses. -/
def reqW : RiskCheckRequest :=
  { symbol := "BTCUSDT", side := "buy", quantity := 1, order_type := "market" }

/-- Clock used in the C7 witness: a Sunday (`weekday() = 6`). -/
def nowC7 : ClockNow := { weekday := 6, hhmm := "12:00" }

/-- C7 (witness): at a Sunday clock with weekend trading disabled the gate
blocks with a `trading_hours` factor, and a concrete no-profile check's
score is within `[0, 100]`. -/
theorem trading_hours_block_C7_witness :
    ((RiskService.check_trade_risk (some rpC7) reqW nowC7 {} {} 25).is_allowed = false ∧
      "trading_hours" ∈
        (RiskService.check_trade_risk (some rpC7) reqW nowC7 {} {} 25).risk_factors) ∧
    (0 ≤ (RiskService.check_trade_risk none reqW nowC7 {} {} 25).risk_score ∧
      (RiskService.check_trade_risk none reqW nowC7 {} {} 25).risk_score ≤ 100) :=
  ⟨trading_hours_block_C7.1 rpC7 reqW nowC7 {} {} 25
      (by norm_num [RiskService.check_trading_hours, rpC7, nowC7]),
    trading_hours_block_C7.2 none reqW nowC7 {} {} 25⟩

/-- C6 (witness): the blocking conclusion at a concrete profile with
`daily_loss_limit = 1000` and snapshot with `daily_pnl = -1500`. -/
theorem daily_loss_blocks_C6_witness :
    (RiskService.check_trade_risk (some { daily_loss_limit := 1000 }) reqW nowC7
        { daily_pnl := -1500 } {} 25).is_allowed = false ∧
    "Daily loss limit exceeded" ∈
      (RiskService.check_trade_risk (some { daily_loss_limit := 1000 }) reqW nowC7
        { daily_pnl := -1500 } {} 25).errors :=
  daily_loss_blocks_C6 { daily_loss_limit := 1000 } reqW nowC7
    { daily_pnl := -1500 } {} 25 rfl rfl

/-! ## Claim C8: RSI range -/

/-- Mean of a list of non-negative rationals is non-negative. -/
theorem pyMean_nonneg {l : List ℚ} (h : ∀ x ∈ l, 0 ≤ x) : 0 ≤ pyMean l := by
  unfold pyMean
  exact div_nonneg (List.sum_nonneg h) (by positivity)

/-- Membership in `pyLastN` implies membership in the original list. -/
theorem pyLastN_subset {n : ℕ} {l : List ℚ} {x : ℚ} (h : x ∈ pyLastN n l) :
    x ∈ l := by
  unfold pyLastN at h
  split at h
  · exact h
  · exact List.drop_subset _ _ h

/-- C8: whenever `_calculate_rsi` returns a value (for any period and any
price history), that value lies in `[0, 100]`. -/
theorem rsi_range_C8 (period : ℕ) (hist : List ℚ) (r : ℚ)
    (h : MomentumStrategy.calculate_rsi period hist = some r) :
    0 ≤ r ∧ r ≤ 100 := by
  unfold MomentumStrategy.calculate_rsi at h
  split at h
  · exact absurd h (by simp)
  · dsimp only at h
    split at h
    · exact absurd h (by simp)
    · set gains := (MomentumStrategy.priceChanges hist).map
        (fun c => if 0 < c then c else 0) with hg
      set losses := (MomentumStrategy.priceChanges hist).map
        (fun c => if 0 < c then 0 else |c|) with hl
      have hgain : 0 ≤ pyMean (pyLastN period gains) := by
        refine pyMean_nonneg fun x hx => ?_
        have := pyLastN_subset hx
        rw [hg] at this
        obtain ⟨c, _, rfl⟩ := List.mem_map.mp this
        split <;> simp_all [le_of_lt]
      have hloss : 0 ≤ pyMean (pyLastN period losses) := by
        refine pyMean_nonneg fun x hx => ?_
        have := pyLastN_subset hx
        rw [hl] at this
        obtain ⟨c, _, rfl⟩ := List.mem_map.mp this
        split
        · simp
        · positivity
      split at h
      · cases h
        norm_num
      · cases h
        rename_i hne
        have hpos : 0 < pyMean (pyLastN period losses) := lt_of_le_of_ne hloss (Ne.symm hne)
        have hrs : 0 ≤ pyMean (pyLastN period gains) / pyMean (pyLastN period losses) :=
          div_nonneg hgain hloss
        have h1 : (0 : ℚ) < 1 + pyMean (pyLastN period gains) / pyMean (pyLastN period losses) := by
          linarith
        have h2 : 100 / (1 + pyMean (pyLastN period gains) / pyMean (pyLastN period losses)) ≤ 100 := by
          rw [div_le_iff₀ h1]
          nlinarith
        have h3 : 0 < 100 / (1 + pyMean (pyLastN period gains) / pyMean (pyLastN period losses)) :=
          div_pos (by norm_num) h1
        constructor <;> linarith

/-- C8 (witness): the RSI of the two-sample history `[1, 2]` with period 1
is defined (it is 100, the zero-average-loss case) and lies in `[0, 100]`. -/
theorem rsi_range_C8_witness : 0 ≤ (100 : ℚ) ∧ (100 : ℚ) ≤ 100 :=
  rsi_range_C8 1 [1, 2] 100
    (by norm_num [MomentumStrategy.calculate_rsi, MomentumStrategy.priceChanges,
      pyLastN, pyMean])

/-! ## Claim C1: position bounds under position sizing -/

/-- Adding a non-negatively clamped quantity keeps the position below a cap
the unclamped addition respects. -/
theorem add_max0_le {pos q m : ℚ} (hpos : pos ≤ m) (hq : pos + q ≤ m) :
    pos + max 0 q ≤ m := by
  rcases le_total q 0 with h | h
  · rw [max_eq_left h]; simpa using hpos
  · rw [max_eq_right h]; exact hq

/-- Subtracting a non-negatively clamped quantity keeps the position above a
floor the unclamped subtraction respects. -/
theorem neg_le_sub_max0 {pos q m : ℚ} (hpos : -m ≤ pos) (hq : -m ≤ pos - q) :
    -m ≤ pos - max 0 q := by
  rcases le_total q 0 with h | h
  · rw [max_eq_left h]; simpa using hpos
  · rw [max_eq_right h]; exact hq

/-- The shared clamp-and-apply tail keeps the position inside
`[-max_position, max_position]`, whatever the incoming (scaled) quantity. -/
theorem clampAndApply_bounds (m pos q : ℚ) (sig : TradeSignal)
    (h1 : -m ≤ pos) (h2 : pos ≤ m) :
    -m ≤ (clampAndApply m pos q sig).2 ∧ (clampAndApply m pos q sig).2 ≤ m := by
  rcases sig
  case buy =>
    show -m ≤ pos + max 0 (if m < pos + q then m - pos else q) ∧
      pos + max 0 (if m < pos + q then m - pos else q) ≤ m
    constructor
    · exact le_trans h1 (le_add_of_nonneg_right (le_max_left 0 _))
    · split_ifs with hc
      · exact add_max0_le h2 (by linarith)
      · exact add_max0_le h2 (by linarith)
  case sell =>
    show -m ≤ pos - max 0 (if pos - q < -m then pos + m else q) ∧
      pos - max 0 (if pos - q < -m then pos + m else q) ≤ m
    constructor
    · split_ifs with hc
      · exact neg_le_sub_max0 h1 (by linarith)
      · exact neg_le_sub_max0 h1 (by linarith)
    · exact le_trans (sub_le_self _ (le_max_left 0 _)) h2
  case hold => exact ⟨h1, h2⟩

/-- One MeanReversion sizing step keeps the position inside
`[-max_position, max_position]`. -/
theorem mr_calc_bounds (cfg : MRConfig) (pos : ℚ) (sig : TradeSignal) (price : ℚ)
    (h1 : -cfg.max_position ≤ pos) (h2 : pos ≤ cfg.max_position) :
    -cfg.max_position ≤ (MeanReversionStrategy.calculate_position_size cfg pos sig price).2 ∧
      (MeanReversionStrategy.calculate_position_size cfg pos sig price).2 ≤ cfg.max_position :=
  clampAndApply_bounds cfg.max_position pos _ sig h1 h2

/-- One Momentum sizing step keeps the position inside
`[-max_position, max_position]`. -/
theorem mom_calc_bounds (cfg : MomConfig) (rsi : Option ℚ) (trend : Option TrendDir)
    (pos : ℚ) (sig : TradeSignal) (price : ℚ)
    (h1 : -cfg.max_position ≤ pos) (h2 : pos ≤ cfg.max_position) :
    -cfg.max_position ≤
        (MomentumStrategy.calculate_position_size cfg rsi trend pos sig price).2 ∧
      (MomentumStrategy.calculate_position_size cfg rsi trend pos sig price).2 ≤
        cfg.max_position :=
  clampAndApply_bounds cfg.max_position pos _ sig h1 h2

/-- One Grid sizing step keeps the position below `max_position` (positive
price and non-negative base amount give a non-negative raw quantity). -/
theorem grid_calc_upper (cfg : GridConfig) (pos : ℚ) (sig : TradeSignal) (price : ℚ)
    (hpos : pos ≤ cfg.max_position) (hb : 0 ≤ cfg.base_amount) (hp : 0 < price) :
    (GridStrategy.calculate_position_size cfg pos sig price).2 ≤ cfg.max_position := by
  have hq : 0 ≤ cfg.base_amount / price := div_nonneg hb hp.le
  rcases sig
  case buy =>
    show pos + (if cfg.max_position < pos + cfg.base_amount / price then
      cfg.max_position - pos else cfg.base_amount / price) ≤ cfg.max_position
    split_ifs <;> linarith
  case sell =>
    show pos - (if cfg.max_position < pos + cfg.base_amount / price then
      cfg.max_position - pos else cfg.base_amount / price) ≤ cfg.max_position
    split_ifs <;> linarith
  case hold =>
    show pos - (if cfg.max_position < pos + cfg.base_amount / price then
      cfg.max_position - pos else cfg.base_amount / price) ≤ cfg.max_position
    split_ifs <;> linarith

/-- The MeanReversion interval invariant, folded over a signal sequence. -/
theorem mr_runSizes_bounds (cfg : MRConfig) :
    ∀ (seq : List (TradeSignal × ℚ)) (pos : ℚ),
      -cfg.max_position ≤ pos → pos ≤ cfg.max_position →
      -cfg.max_position ≤ MeanReversionStrategy.runSizes cfg pos seq ∧
        MeanReversionStrategy.runSizes cfg pos seq ≤ cfg.max_position := by
  intro seq
  induction seq with
  | nil => intro pos h1 h2; exact ⟨h1, h2⟩
  | cons hd tl ih =>
    intro pos h1 h2
    rcases hd with ⟨sig, price⟩
    have hstep := mr_calc_bounds cfg pos sig price h1 h2
    exact ih _ hstep.1 hstep.2

/-- The Momentum interval invariant, folded over a signal sequence. -/
theorem mom_runSizes_bounds (cfg : MomConfig) :
    ∀ (seq : List (TradeSignal × ℚ × Option ℚ × Option TrendDir)) (pos : ℚ),
      -cfg.max_position ≤ pos → pos ≤ cfg.max_position →
      -cfg.max_position ≤ MomentumStrategy.runSizes cfg pos seq ∧
        MomentumStrategy.runSizes cfg pos seq ≤ cfg.max_position := by
  intro seq
  induction seq with
  | nil => intro pos h1 h2; exact ⟨h1, h2⟩
  | cons hd tl ih =>
    intro pos h1 h2
    rcases hd with ⟨sig, price, rsi, trend⟩
    have hstep := mom_calc_bounds cfg rsi trend pos sig price h1 h2
    exact ih _ hstep.1 hstep.2

/-- The Grid upper-bound invariant, folded over a signal sequence of
positive prices. -/
theorem grid_runSizes_upper (cfg : GridConfig) (hb : 0 ≤ cfg.base_amount) :
    ∀ (seq : List (TradeSignal × ℚ)) (pos : ℚ), pos ≤ cfg.max_position →
      (∀ t ∈ seq, 0 < t.2) →
      GridStrategy.runSizes cfg pos seq ≤ cfg.max_position := by
  intro seq
  induction seq with
  | nil => intro pos h2 _; exact h2
  | cons hd tl ih =>
    intro pos h2 hall
    rcases hd with ⟨sig, price⟩
    have hstep := grid_calc_upper cfg pos sig price h2 hb
      (hall (sig, price) (List.mem_cons_self _ _))
    exact ih _ hstep fun t ht => hall t (List.mem_cons_of_mem _ ht)

/-- Grid configuration of the C1 counterexample: `base_amount = 100`,
`max_position = 100`. -/
def gridCfgC1 : GridConfig :=
  { base_price := 1000, grid_spacing := 10, num_levels := 2, base_amount := 100,
    max_position := 100 }

/-- C1 (counterexample): for the Grid strategy the claimed invariant fails —
starting from position 0, two SELL signals at price 1 under `gridCfgC1`
drive `current_position` to `-200`, strictly below `-max_position = -100`:
`GridStrategy.calculate_position_size` clamps only against the upper bound. -/
theorem grid_position_bound_C1_cex :
    GridStrategy.runSizes gridCfgC1 0 [(TradeSignal.sell, 1), (TradeSignal.sell, 1)] <
      -gridCfgC1.max_position := by
  norm_num [GridStrategy.runSizes, GridStrategy.calculate_position_size, gridCfgC1]

/-- C1 (amended): for MeanReversion and Momentum, any sequence of signals
processed through `calculate_position_size` keeps `current_position` within
`[-max_position, max_position]` (their clamps are two-sided and quantities
are forced non-negative); for Grid only the upper bound holds — starting at
or below `max_position`, with a non-negative `base_amount` and positive tick
prices, the position never exceeds `max_position` (SELL sequences can still
drive it below `-max_position`, as the counterexample shows). -/
theorem position_bounds_C1 :
    (∀ (cfg : MRConfig) (pos : ℚ) (seq : List (TradeSignal × ℚ)),
      -cfg.max_position ≤ pos → pos ≤ cfg.max_position →
      -cfg.max_position ≤ MeanReversionStrategy.runSizes cfg pos seq ∧
        MeanReversionStrategy.runSizes cfg pos seq ≤ cfg.max_position) ∧
    (∀ (cfg : MomConfig) (pos : ℚ)
        (seq : List (TradeSignal × ℚ × Option ℚ × Option TrendDir)),
      -cfg.max_position ≤ pos → pos ≤ cfg.max_position →
      -cfg.max_position ≤ MomentumStrategy.runSizes cfg pos seq ∧
        MomentumStrategy.runSizes cfg pos seq ≤ cfg.max_position) ∧
    (∀ (cfg : GridConfig) (pos : ℚ) (seq : List (TradeSignal × ℚ)),
      pos ≤ cfg.max_position → 0 ≤ cfg.base_amount → (∀ t ∈ seq, 0 < t.2) →
      GridStrategy.runSizes cfg pos seq ≤ cfg.max_position) :=
  ⟨fun cfg pos seq h1 h2 => mr_runSizes_bounds cfg seq pos h1 h2,
   fun cfg pos seq h1 h2 => mom_runSizes_bounds cfg seq pos h1 h2,
   fun cfg pos seq h2 hb hall => grid_runSizes_upper cfg hb seq pos h2 hall⟩

/-- C1 (witness): the amended bounds at concrete configurations and signal
sequences. -/
theorem position_bounds_C1_witness :
    (-({} : MRConfig).max_position ≤
        MeanReversionStrategy.runSizes {} 0 [(TradeSignal.buy, 50), (TradeSignal.sell, 50)] ∧
      MeanReversionStrategy.runSizes {} 0 [(TradeSignal.buy, 50), (TradeSignal.sell, 50)] ≤
        ({} : MRConfig).max_position) ∧
    (-({} : MomConfig).max_position ≤
        MomentumStrategy.runSizes {} 0 [(TradeSignal.sell, 50, some 90, some TrendDir.down)] ∧
      MomentumStrategy.runSizes {} 0 [(TradeSignal.sell, 50, some 90, some TrendDir.down)] ≤
        ({} : MomConfig).max_position) ∧
    GridStrategy.runSizes gridCfgC1 0 [(TradeSignal.buy, 1)] ≤ gridCfgC1.max_position :=
  ⟨position_bounds_C1.1 {} 0 [(TradeSignal.buy, 50), (TradeSignal.sell, 50)]
      (by norm_num) (by norm_num),
   position_bounds_C1.2.1 {} 0 [(TradeSignal.sell, 50, some 90, some TrendDir.down)]
      (by norm_num) (by norm_num),
   position_bounds_C1.2.2 gridCfgC1 0 [(TradeSignal.buy, 1)]
      (by norm_num [gridCfgC1]) (by norm_num [gridCfgC1]) (by norm_num)⟩

/-! ## Claim C4: MeanReversion BUY hysteresis -/

namespace MeanReversionStrategy

/-- Invariant carried between ticks after a BUY: either the hysteresis latch
`last_signal` is still BUY, or the position has no BUY headroom.  In either
case `execute` cannot emit BUY on a tick whose deviation stays at or below
`buy_threshold`. -/
def BuyLocked (cfg : MRConfig) (st : State) : Prop :=
  st.last_signal = some TradeSignal.buy ∨ cfg.max_position ≤ st.current_position

/-- One `execute` step on a low-deviation tick emits no BUY and preserves
`BuyLocked` (given validated thresholds, `buy_threshold < sell_threshold`). -/
theorem step_locked (cfg : MRConfig) (st : State) (p : ℚ)
    (hbs : cfg.buy_threshold < cfg.sell_threshold)
    (hI : BuyLocked cfg st)
    (hlow : devLowB cfg st p = true) :
    (execute cfg st p).1 ≠ some TradeSignal.buy ∧
      BuyLocked cfg (execute cfg st p).2 := by
  unfold BuyLocked at hI ⊢
  unfold execute
  dsimp only
  by_cases hrun : st.is_running = false
  · rw [if_pos hrun]
    exact ⟨by simp, hI⟩
  · rw [if_neg hrun]
    by_cases hple : p ≤ 0
    · rw [if_pos hple]
      exact ⟨by simp, hI⟩
    · rw [if_neg hple]
      by_cases hlen : (pushCap 200 st.price_history p).length < cfg.long_period
      · rw [if_pos hlen]
        exact ⟨by simp, hI⟩
      · rw [if_neg hlen]
        set dev := (p - pyMean (pyLastN cfg.long_period (pushCap 200 st.price_history p))) /
          pyMean (pyLastN cfg.long_period (pushCap 200 st.price_history p)) with hdev
        have hdevOf : deviationOf cfg st p = some dev := by
          unfold deviationOf
          dsimp only
          rw [if_neg hrun, if_neg hple, if_neg hlen]
        have hlow' : dev ≤ cfg.buy_threshold := by
          unfold devLowB at hlow
          rw [hdevOf] at hlow
          exact of_decide_eq_true hlow
        rcases hI with hlast | hpos
        · by_cases hc1 : dev ≤ cfg.buy_threshold ∧ st.current_position < cfg.max_position
          · rw [if_pos hc1, if_neg (by simp [hlast])]
            exact ⟨by simp, Or.inl hlast⟩
          · rw [if_neg hc1]
            by_cases hc2 : cfg.sell_threshold ≤ dev ∧
                -cfg.max_position < st.current_position
            · exact absurd hc2.1 (by linarith)
            · rw [if_neg hc2]
              refine ⟨by simp, Or.inr ?_⟩
              exact le_of_not_lt ((not_and.mp hc1) hlow')
        · have hc1 : ¬(dev ≤ cfg.buy_threshold ∧
              st.current_position < cfg.max_position) := by
            rintro ⟨_, hlt⟩
            exact absurd hpos (not_le.mpr hlt)
          rw [if_neg hc1]
          by_cases hc2 : cfg.sell_threshold ≤ dev ∧
              -cfg.max_position < st.current_position
          · exact absurd hc2.1 (by linarith)
          · rw [if_neg hc2]
            exact ⟨by simp, Or.inr hpos⟩

/-- Along any tick sequence that satisfies the low-deviation side condition,
a `BuyLocked` strategy never emits BUY. -/
theorem emitsBuy_eq_false_of_locked (cfg : MRConfig)
    (hbs : cfg.buy_threshold < cfg.sell_threshold) :
    ∀ (ps : List ℚ) (st : State), BuyLocked cfg st →
      devLowTrace cfg st ps = true → emitsBuy cfg st ps = false := by
  intro ps
  induction ps with
  | nil => intro st _ _; rfl
  | cons p rest ih =>
    intro st hI htr
    rw [devLowTrace] at htr
    simp only [Bool.and_eq_true] at htr
    obtain ⟨h1, h2⟩ := htr
    have hstep := step_locked cfg st p hbs hI h1
    rw [emitsBuy, if_neg hstep.1]
    exact ih _ hstep.2 h2

/-- An `execute` call that emits BUY leaves the hysteresis latch at BUY. -/
theorem buy_sets_last (cfg : MRConfig) (st : State) (p : ℚ)
    (h : (execute cfg st p).1 = some TradeSignal.buy) :
    (execute cfg st p).2.last_signal = some TradeSignal.buy := by
  unfold execute at h ⊢
  dsimp only at h ⊢
  split_ifs at h ⊢ <;> simp_all

end MeanReversionStrategy

/-- C4: once a running MeanReversion strategy's `execute` emits BUY (with a
validated configuration: `buy_threshold < sell_threshold`), no subsequent
call emits BUY as long as every intervening tick either does not reach the
deviation computation or has deviation from the long SMA at most
`buy_threshold`; equivalently, a BUY can recur only after a tick whose
deviation exceeds the threshold. -/
theorem mr_buy_hysteresis_C4 (cfg : MRConfig) (st : MeanReversionStrategy.State)
    (p0 : ℚ) (ps : List ℚ)
    (hbs : cfg.buy_threshold < cfg.sell_threshold)
    (hbuy : (MeanReversionStrategy.execute cfg st p0).1 = some TradeSignal.buy)
    (hlow : MeanReversionStrategy.devLowTrace cfg
      (MeanReversionStrategy.execute cfg st p0).2 ps = true) :
    MeanReversionStrategy.emitsBuy cfg
      (MeanReversionStrategy.execute cfg st p0).2 ps = false :=
  MeanReversionStrategy.emitsBuy_eq_false_of_locked cfg hbs ps _
    (Or.inl (MeanReversionStrategy.buy_sets_last cfg st p0 hbuy)) hlow

/-- Configuration of the C4 witness: `long_period = 2`, default thresholds. -/
def mrCfgW : MRConfig := { short_period := 1, long_period := 2 }

/-- State of the C4 witness: running, with one price sample recorded. -/
def mrStW : MeanReversionStrategy.State := { price_history := [100] }

/-- C4 (witness): a tick at 80 emits BUY (deviation −1/9 ≤ −0.02); a
following tick at 70 still has deviation −1/15 ≤ −0.02 and emits no BUY. -/
theorem mr_buy_hysteresis_C4_witness :
    MeanReversionStrategy.emitsBuy mrCfgW
      (MeanReversionStrategy.execute mrCfgW mrStW 80).2 [70] = false :=
  mr_buy_hysteresis_C4 mrCfgW mrStW 80 [70]
    (by norm_num [mrCfgW])
    (by
      unfold MeanReversionStrategy.execute
      norm_num [mrStW, mrCfgW, pushCap, pyLastN, pyMean]
      simp)
    (by
      have h1 : (MeanReversionStrategy.execute mrCfgW mrStW 80).2 =
          { price_history := [100, 80], current_position := 5 / 4,
            last_signal := some TradeSignal.buy, is_running := true } := by
        unfold MeanReversionStrategy.execute
          MeanReversionStrategy.calculate_position_size clampAndApply
        norm_num [mrStW, mrCfgW, pushCap, pyLastN, pyMean, abs_eq_max_neg, max_def]
        simp
      rw [h1]
      have hdev : MeanReversionStrategy.deviationOf mrCfgW
          { price_history := [100, 80], current_position := 5 / 4,
            last_signal := some TradeSignal.buy, is_running := true } 70 =
          some (-1 / 15) := by
        unfold MeanReversionStrategy.deviationOf
        norm_num [mrCfgW, pushCap, pyLastN, pyMean]
      simp only [MeanReversionStrategy.devLowTrace,
        MeanReversionStrategy.devLowB, hdev]
      norm_num [mrCfgW])
